import Mathlib

/-
Verification of the PCM-to-WAV core of Notq-AI (src/nodes/text_to_speech.py).

The two functions under study, `parse_audio_mime_type` and `convert_to_wav`, are
pure string/byte processing.  They are embedded here over `List Char` (Python
strings restricted to the ASCII inputs that occur) and `List Nat` (byte
buffers, one `Nat` per byte).  Python's unbounded integers are `Int`;
`struct.pack`'s range check on unsigned fields is modelled by `Option`, with
`none` standing for a raised `struct.error`, and a failed `int()` call is the
`none` of `pyInt`.
-/

/-- Characters removed by Python's `str.strip()` on the ASCII inputs in scope:
space, tab, newline, carriage return, vertical tab, form feed. -/
def pySpace (c : Char) : Bool :=
  c = ' ' || c = '\t' || c = '\n' || c = '\r' || c = Char.ofNat 11 || c = Char.ofNat 12

/-- Python `s.strip()` on a character list. -/
def pyStrip (l : List Char) : List Char :=
  ((l.dropWhile pySpace).reverse.dropWhile pySpace).reverse

/-- Python `s.lower()` on ASCII characters. -/
def pyLower (l : List Char) : List Char := l.map Char.toLower

/-- Python `s.split(";")`: split on every occurrence of `;`; the empty string
yields `[""]`. -/
def splitSemi : List Char → List (List Char)
  | [] => [[]]
  | c :: rest =>
    if c = ';' then [] :: splitSemi rest
    else
      match splitSemi rest with
      | s :: ss => (c :: s) :: ss
      | [] => [[c]]

/-- Python `s.split(sep, 1)[1]` for a one-character separator: the characters
after the first occurrence of `c`; `none` models the `IndexError` raised when
`c` does not occur (always caught by the enclosing `except`). -/
def afterFirstChar (c : Char) : List Char → Option (List Char)
  | [] => none
  | x :: rest => if x = c then some rest else afterFirstChar c rest

/-- Shape of the digit part of a Python integer literal after its first digit:
decimal digits with single underscores allowed between digits. -/
def pyDigitsRest : List Char → Bool
  | [] => true
  | c :: rest =>
    if c.isDigit then pyDigitsRest rest
    else if c = '_' then
      match rest with
      | [] => false
      | d :: _ => d.isDigit && pyDigitsRest rest
    else false

/-- Shape of the body of an unsigned Python integer literal: a digit followed
by digits and single interior underscores. -/
def pyIntBody : List Char → Bool
  | [] => false
  | c :: rest => c.isDigit && pyDigitsRest rest

/-- Numeric value of the digit characters of a literal (underscores removed). -/
def digitsVal (l : List Char) : Nat :=
  (l.filter Char.isDigit).foldl (fun a c => 10 * a + (c.toNat - 48)) 0

/-- Python `int(s)`: optional surrounding whitespace, an optional sign, then a
decimal digit string; `none` models a raised `ValueError`. -/
def pyInt (l : List Char) : Option Int :=
  match pyStrip l with
  | '+' :: rest => if pyIntBody rest then some (digitsVal rest) else none
  | '-' :: rest => if pyIntBody rest then some (-(digitsVal rest : Int)) else none
  | t => if pyIntBody t then some (digitsVal t) else none

/-- The result of `parse_audio_mime_type`: the dictionary
`{"bits_per_sample": ..., "rate": ...}`. -/
structure AudioParams where
  bits_per_sample : Int
  rate : Int
deriving DecidableEq, Repr

/-- The integer argument of a `rate=` segment: `int(p.split("=", 1)[1])`. -/
def rateArg (p : List Char) : Option Int := (afterFirstChar '=' p).bind pyInt

/-- The integer argument of an `audio/L` segment: `int(p.split("L", 1)[1])`. -/
def bitsArg (p : List Char) : Option Int := (afterFirstChar 'L' p).bind pyInt

/-- One iteration of the segment loop of `parse_audio_mime_type`: first the
case-insensitive `rate=` check, then the case-sensitive `audio/L` check, each
keeping the current value when `int()` fails. -/
def mimeStep (acc : AudioParams) (p : List Char) : AudioParams :=
  let acc1 :=
    if List.isPrefixOf ("rate=".data) (pyLower p) then
      match rateArg p with
      | some n => { acc with rate := n }
      | none => acc
    else acc
  if List.isPrefixOf ("audio/L".data) p then
    match bitsArg p with
    | some n => { acc1 with bits_per_sample := n }
    | none => acc1
  else acc1

/-- The `;`-separated, stripped segments of the MIME string; `None` is treated
as `""` (the `mime_type or ""` in the source). -/
def mimeParts (mime_type : Option String) : List (List Char) :=
  (splitSemi (mime_type.getD "").data).map pyStrip

/-- The segment loop of `parse_audio_mime_type`, started from the defaults
`bits_per_sample = 16`, `rate = 24000`. -/
def parseParts (parts : List (List Char)) : AudioParams :=
  parts.foldl mimeStep ⟨16, 24000⟩

/-- `parse_audio_mime_type` from `src/nodes/text_to_speech.py`. -/
def parse_audio_mime_type (mime_type : Option String) : AudioParams :=
  parseParts (mimeParts mime_type)

/-- A segment that actually sets `rate`: the `rate=` prefix matches after
lowercasing and the `int()` call succeeds. -/
def setsRate (p : List Char) : Bool :=
  List.isPrefixOf ("rate=".data) (pyLower p) && (rateArg p).isSome

/-- A segment that actually sets `bits_per_sample`. -/
def setsBits (p : List Char) : Bool :=
  List.isPrefixOf ("audio/L".data) p && (bitsArg p).isSome

/-- Little-endian byte list of a 16-bit value. -/
def le16 (n : Nat) : List Nat := [n % 256, n / 256 % 256]

/-- Little-endian byte list of a 32-bit value. -/
def le32 (n : Nat) : List Nat :=
  [n % 256, n / 256 % 256, n / 65536 % 256, n / 16777216 % 256]

/-- `struct.pack("<H", v)`: Python checks the unsigned 16-bit range and raises
`struct.error` (modelled by `none`) when `v` is out of range. -/
def packU16 (v : Int) : Option (List Nat) :=
  if 0 ≤ v ∧ v < 65536 then some (le16 v.toNat) else none

/-- `struct.pack("<I", v)`: unsigned 32-bit range check, then little-endian
bytes. -/
def packU32 (v : Int) : Option (List Nat) :=
  if 0 ≤ v ∧ v < 4294967296 then some (le32 v.toNat) else none

/-- The ASCII bytes of a literal tag such as `b"RIFF"`. -/
def asciiBytes (s : String) : List Nat := s.data.map Char.toNat

/-- The header arithmetic and the `struct.pack("<4sI4s4sIHHIIHH4sI", ...)` call
of `convert_to_wav`, applied to the already-defaulted parameters.  `Int.fdiv`
is Python's floor division `//`; `none` models a raised `struct.error`. -/
def encode_wav (audio_data : List Nat) (bits_per_sample sample_rate : Int) :
    Option (List Nat) :=
  let num_channels : Int := 1
  let data_size : Int := (audio_data.length : Int)
  let bytes_per_sample : Int := Int.fdiv bits_per_sample 8
  let block_align : Int := num_channels * bytes_per_sample
  let byte_rate : Int := sample_rate * block_align
  let chunk_size : Int := 36 + data_size
  (packU32 chunk_size).bind fun bChunk =>
  (packU32 16).bind fun bFmtSize =>
  (packU16 1).bind fun bTag =>
  (packU16 num_channels).bind fun bCh =>
  (packU32 sample_rate).bind fun bRate =>
  (packU32 byte_rate).bind fun bByteRate =>
  (packU16 block_align).bind fun bAlign =>
  (packU16 bits_per_sample).bind fun bBits =>
  (packU32 data_size).bind fun bData =>
  some (asciiBytes "RIFF" ++ bChunk ++ asciiBytes "WAVE" ++ asciiBytes "fmt " ++
    bFmtSize ++ bTag ++ bCh ++ bRate ++ bByteRate ++ bAlign ++ bBits ++
    asciiBytes "data" ++ bData ++ audio_data)

/-- `convert_to_wav` from `src/nodes/text_to_speech.py`: parse the MIME
parameters, replace falsy (that is, zero) values by the defaults — the
`int(params.get("bits_per_sample") or 16)` and `int(params.get("rate") or
24000)` lines — then build the header and append the payload. -/
def convert_to_wav (audio_data : List Nat) (mime_type : String) : Option (List Nat) :=
  let params := parse_audio_mime_type (some mime_type)
  let bits_per_sample : Int :=
    if params.bits_per_sample = 0 then 16 else params.bits_per_sample
  let sample_rate : Int := if params.rate = 0 then 24000 else params.rate
  encode_wav audio_data bits_per_sample sample_rate

/-- Python `x or d` for an optional string: `None` and `""` give the default. -/
def pyOr (x : Option String) (d : String) : String :=
  match x with
  | none => d
  | some s => if s = "" then d else s

/-- The test `mime_type and mime_type.lower().startswith("audio/wav")` from
`text_to_speech`. -/
def mimeSaysWav (mime_type : Option String) : Bool :=
  match mime_type with
  | none => false
  | some s => if s = "" then false else List.isPrefixOf ("audio/wav".data) (pyLower s.data)

/-- The payload/extension decision of `text_to_speech`
(src/nodes/text_to_speech.py, lines 120-127):
`ext = mimetypes.guess_extension(mime_type or "") or ".wav"`; when `ext` is
`.wav` the payload is passed through if the MIME type already says
`audio/wav` and converted otherwise (defaulting the MIME type to
`audio/L16;rate=24000`); when `ext` is anything else the payload is passed
through as given.  `guess` abstracts the standard library's
`mimetypes.guess_extension`. -/
def tts_payload_ext (guess : String → Option String) (raw : List Nat)
    (mime_type : Option String) : Option (List Nat) × String :=
  let ext0 := (guess (pyOr mime_type "")).getD ""
  let ext := if ext0 = "" then ".wav" else ext0
  if pyLower ext.data = ".wav".data then
    if mimeSaysWav mime_type then (some raw, ext)
    else (convert_to_wav raw (pyOr mime_type "audio/L16;rate=24000"), ext)
  else (some raw, ext)

/-- Models the Python standard library's `mimetypes.guess_extension` on the
inputs the claims exercise: a recognized MIME type maps to a file extension
(`audio/mpeg` to an MP3-family extension that is not `.wav`), while raw-PCM
parameter strings such as `audio/L16;rate=24000`, the empty string, and other
unrecognized strings map to `none`. -/
def guessExtensionModel (m : String) : Option String :=
  if m = "audio/mpeg" then some ".mp3"
  else if m = "audio/x-wav" then some ".wav"
  else none

/-- Two parameter records are equal when their two fields are. -/
theorem AudioParams.eq_of {a b : AudioParams}
    (h1 : a.bits_per_sample = b.bits_per_sample) (h2 : a.rate = b.rate) : a = b := by
  cases a; cases b; cases h1; cases h2; rfl

/-- The `rate` field after one loop iteration: overwritten exactly when the
segment matches `rate=` and its `int()` succeeds. -/
theorem mimeStep_rate (acc : AudioParams) (p : List Char) :
    (mimeStep acc p).rate =
      if setsRate p then (rateArg p).getD 0 else acc.rate := by
  unfold mimeStep setsRate
  cases hr : List.isPrefixOf ("rate=".data) (pyLower p) <;>
    cases hb : List.isPrefixOf ("audio/L".data) p <;>
      cases har : rateArg p <;> cases hab : bitsArg p <;>
        simp [har, hab]

/-- The `bits_per_sample` field after one loop iteration. -/
theorem mimeStep_bits (acc : AudioParams) (p : List Char) :
    (mimeStep acc p).bits_per_sample =
      if setsBits p then (bitsArg p).getD 0 else acc.bits_per_sample := by
  unfold mimeStep setsBits
  cases hr : List.isPrefixOf ("rate=".data) (pyLower p) <;>
    cases hb : List.isPrefixOf ("audio/L".data) p <;>
      cases har : rateArg p <;> cases hab : bitsArg p <;>
        simp [har, hab]

/-- Two adjacent loop iterations commute when the two segments do not both set
the same parameter. -/
theorem mimeStep_comm (acc : AudioParams) (a b : List Char)
    (hr : ¬(setsRate a = true ∧ setsRate b = true))
    (hb : ¬(setsBits a = true ∧ setsBits b = true)) :
    mimeStep (mimeStep acc a) b = mimeStep (mimeStep acc b) a := by
  apply AudioParams.eq_of
  · simp only [mimeStep_bits]
    cases hba : setsBits a <;> cases hbb : setsBits b <;> simp_all
  · simp only [mimeStep_rate]
    cases hsa : setsRate a <;> cases hsb : setsRate b <;> simp_all

/-- A run of segments none of which sets `rate` leaves `rate` unchanged. -/
theorem foldl_rate_const (l : List (List Char)) :
    ∀ acc : AudioParams, (∀ p ∈ l, setsRate p = false) →
      (l.foldl mimeStep acc).rate = acc.rate := by
  induction l with
  | nil => intro acc _; rfl
  | cons x xs ih =>
    intro acc h
    simp only [List.foldl_cons]
    rw [ih _ (fun p hp => h p (List.mem_cons_of_mem _ hp)),
      mimeStep_rate, h x (List.mem_cons_self _ _)]
    simp

/-- A run of segments none of which sets `bits_per_sample` leaves it unchanged. -/
theorem foldl_bits_const (l : List (List Char)) :
    ∀ acc : AudioParams, (∀ p ∈ l, setsBits p = false) →
      (l.foldl mimeStep acc).bits_per_sample = acc.bits_per_sample := by
  induction l with
  | nil => intro acc _; rfl
  | cons x xs ih =>
    intro acc h
    simp only [List.foldl_cons]
    rw [ih _ (fun p hp => h p (List.mem_cons_of_mem _ hp)),
      mimeStep_bits, h x (List.mem_cons_self _ _)]
    simp

/-- The segment loop is invariant under permutations of the segment list as
long as no parameter is set by two different segments. -/
theorem foldl_mimeStep_perm {l₁ l₂ : List (List Char)} (hp : l₁.Perm l₂) :
    l₁.countP setsRate ≤ 1 → l₁.countP setsBits ≤ 1 →
    ∀ acc : AudioParams, l₁.foldl mimeStep acc = l₂.foldl mimeStep acc := by
  induction hp with
  | nil => intro _ _ acc; rfl
  | cons x h ih =>
    intro h1 h2 acc
    simp only [List.countP_cons] at h1 h2
    simp only [List.foldl_cons]
    exact ih (by omega) (by omega) (mimeStep acc x)
  | swap x y l =>
    intro h1 h2 acc
    simp only [List.countP_cons] at h1 h2
    simp only [List.foldl_cons]
    rw [mimeStep_comm]
    · rintro ⟨hy, hx⟩
      simp [hy, hx] at h1
    · rintro ⟨hy, hx⟩
      simp [hy, hx] at h2
  | trans hab hbc ih1 ih2 =>
    intro h1 h2 acc
    rw [ih1 h1 h2 acc]
    exact ih2 (by rw [← List.Perm.countP_eq _ hab]; exact h1)
      (by rw [← List.Perm.countP_eq _ hab]; exact h2) acc

/-- A successful `struct.pack("<I", _)` yields 4 bytes. -/
theorem packU32_len {v : Int} {b : List Nat} (h : packU32 v = some b) : b.length = 4 := by
  unfold packU32 at h
  split at h
  · cases h; rfl
  · exact Option.noConfusion h

/-- A successful `struct.pack("<H", _)` yields 2 bytes. -/
theorem packU16_len {v : Int} {b : List Nat} (h : packU16 v = some b) : b.length = 2 := by
  unfold packU16 at h
  split at h
  · cases h; rfl
  · exact Option.noConfusion h

/-- Any successful encoder output is a 44-byte header followed by the payload. -/
theorem encode_wav_structure {a : List Nat} {bits rate : Int} {out : List Nat}
    (h : encode_wav a bits rate = some out) :
    ∃ hdr : List Nat, hdr.length = 44 ∧ out = hdr ++ a := by
  simp only [encode_wav, Option.bind_eq_some] at h
  obtain ⟨bChunk, e1, bFmtSize, e2, bTag, e3, bCh, e4, bRate, e5, bByteRate, e6,
    bAlign, e7, bBits, e8, bData, e9, hsome⟩ := h
  refine ⟨asciiBytes "RIFF" ++ bChunk ++ asciiBytes "WAVE" ++ asciiBytes "fmt " ++
    bFmtSize ++ bTag ++ bCh ++ bRate ++ bByteRate ++ bAlign ++ bBits ++
    asciiBytes "data" ++ bData, ?_, ?_⟩
  · simp [List.length_append, packU32_len e1, packU32_len e2, packU16_len e3,
      packU16_len e4, packU32_len e5, packU32_len e6, packU16_len e7,
      packU16_len e8, packU32_len e9, asciiBytes]
  · cases hsome
    simp [List.append_assoc]

/-- The payload sits verbatim after the 44-byte header. -/
theorem encode_wav_drop44 {a : List Nat} {bits rate : Int} {out : List Nat}
    (h : encode_wav a bits rate = some out) : List.drop 44 out = a := by
  obtain ⟨hdr, hlen, rfl⟩ := encode_wav_structure h
  rw [← hlen, List.drop_left]

/-- `convert_to_wav` also keeps the payload verbatim after the header. -/
theorem convert_to_wav_drop44 {a : List Nat} {m : String} {out : List Nat}
    (h : convert_to_wav a m = some out) : List.drop 44 out = a := by
  simp only [convert_to_wav] at h
  exact encode_wav_drop44 h

/-- When every header field fits its `struct.pack` range, the encoder succeeds
and produces exactly the canonical RIFF/WAVE layout. -/
theorem encode_wav_eq (a : List Nat) (bits rate : Int)
    (hb0 : 0 ≤ bits) (hb1 : bits < 65536)
    (hr0 : 0 ≤ rate) (hr1 : rate < 4294967296)
    (hbr : rate * (bits / 8) < 4294967296)
    (hlen : (a.length : Int) ≤ 4294967259) :
    encode_wav a bits rate =
      some (asciiBytes "RIFF" ++ le32 (36 + a.length) ++ asciiBytes "WAVE" ++
        asciiBytes "fmt " ++ le32 16 ++ le16 1 ++ le16 1 ++ le32 rate.toNat ++
        le32 (rate * (bits / 8)).toNat ++ le16 (bits / 8).toNat ++ le16 bits.toNat ++
        asciiBytes "data" ++ le32 a.length ++ a) := by
  have hfd : Int.fdiv bits 8 = bits / 8 := Int.fdiv_eq_ediv _ (by norm_num)
  have hq0 : 0 ≤ bits / 8 := by omega
  have hq1 : bits / 8 < 65536 := by omega
  have hbr0 : 0 ≤ rate * (bits / 8) := mul_nonneg hr0 hq0
  have e1 : packU32 (36 + (a.length : Int)) = some (le32 (36 + a.length)) := by
    unfold packU32
    rw [if_pos (by omega)]
    have h36 : (36 + (a.length : Int)).toNat = 36 + a.length := by omega
    rw [h36]
  have e2 : packU32 16 = some (le32 16) := by rfl
  have e3 : packU16 1 = some (le16 1) := by rfl
  have e5 : packU32 rate = some (le32 rate.toNat) := by
    unfold packU32; rw [if_pos ⟨hr0, hr1⟩]
  have e6 : packU32 (rate * (bits / 8)) = some (le32 (rate * (bits / 8)).toNat) := by
    unfold packU32; rw [if_pos ⟨hbr0, hbr⟩]
  have e7 : packU16 (bits / 8) = some (le16 (bits / 8).toNat) := by
    unfold packU16; rw [if_pos ⟨hq0, hq1⟩]
  have e8 : packU16 bits = some (le16 bits.toNat) := by
    unfold packU16; rw [if_pos ⟨hb0, hb1⟩]
  have e9 : packU32 ((a.length : Nat) : Int) = some (le32 a.length) := by
    unfold packU32
    rw [if_pos (by omega)]
    rw [Int.toNat_ofNat]
  simp only [encode_wav, hfd, one_mul]
  rw [e1, e2, e3, e5, e6, e7, e8, e9]
  simp only [Option.some_bind]

/-- C1: for a positive bits-per-sample that is a multiple of 8 and a positive
sample rate, the encoder's output is exactly the prescribed 44-byte RIFF/WAVE
header followed by the payload, and its length is `44 + len(payload)` — amended
with the `struct.pack` range bounds on the header fields (the original claim's
unbounded quantification fails, see `C1_rate_overflow_cex`). -/
theorem C1_wav_header_layout (a : List Nat) (bits rate : Int)
    (hpos : 0 < bits) (hdvd : 8 ∣ bits) (hrpos : 0 < rate)
    (hb1 : bits < 65536) (hr1 : rate < 4294967296)
    (hbr : rate * (bits / 8) < 4294967296) (hlen : (a.length : Int) ≤ 4294967259) :
    encode_wav a bits rate =
      some (asciiBytes "RIFF" ++ le32 (36 + a.length) ++ asciiBytes "WAVE" ++
        asciiBytes "fmt " ++ le32 16 ++ le16 1 ++ le16 1 ++ le32 rate.toNat ++
        le32 (rate.toNat * (bits.toNat / 8)) ++ le16 (bits.toNat / 8) ++
        le16 bits.toNat ++ asciiBytes "data" ++ le32 a.length ++ a) ∧
    ∀ out, encode_wav a bits rate = some out → out.length = 44 + a.length := by
  obtain ⟨k, hk⟩ := hdvd
  have hk0 : 0 ≤ k := by omega
  obtain ⟨kn, hkn⟩ := Int.eq_ofNat_of_zero_le hk0
  obtain ⟨rn, hrn⟩ := Int.eq_ofNat_of_zero_le hrpos.le
  have f2 : bits / 8 = (kn : Int) := by omega
  have f4 : bits.toNat / 8 = kn := by omega
  have f5 : rate.toNat = rn := by omega
  have f6 : (rate * (bits / 8)).toNat = rn * kn := by
    rw [f2, hrn, ← Nat.cast_mul, Int.toNat_ofNat]
  have f7 : (bits / 8).toNat = kn := by omega
  constructor
  · rw [encode_wav_eq a bits rate (by omega) hb1 (by omega) hr1 hbr hlen]
    rw [f6, f7, f5, f4]
  · intro out hout
    obtain ⟨hdr, hlen44, rfl⟩ := encode_wav_structure hout
    simp [List.length_append, hlen44]

/-- C1 counterexample: the claim as stated quantifies over every positive
sample rate, but at `sample_rate = 2^32` (with 16-bit samples and an empty
payload) `struct.pack("<I", ...)` raises `struct.error`, so the encoder does
not return the 44-byte header at all. -/
theorem C1_rate_overflow_cex : encode_wav [] 16 4294967296 = none := by decide

/-- C1 witness: the layout theorem at the default parameters and an empty
payload gives exactly the canonical 44-byte header. -/
theorem C1_wav_header_layout_witness :
    encode_wav [] 16 24000 =
      some [82, 73, 70, 70, 36, 0, 0, 0, 87, 65, 86, 69, 102, 109, 116, 32,
        16, 0, 0, 0, 1, 0, 1, 0, 192, 93, 0, 0, 128, 187, 0, 0, 2, 0, 16, 0,
        100, 97, 116, 97, 0, 0, 0, 0] := by
  rw [(C1_wav_header_layout [] 16 24000 (by decide) ⟨2, by decide⟩ (by decide)
    (by decide) (by decide) (by decide) (by decide)).1]
  rfl

/-- C2: whenever the encoder returns a byte sequence, the bytes from offset 44
onward are exactly the input payload, and nothing outside the 44-byte header
differs from it. -/
theorem C2_payload_preserved (a : List Nat) (bits rate : Int) (out : List Nat)
    (h : encode_wav a bits rate = some out) :
    List.drop 44 out = a ∧ List.take 44 out ++ a = out := by
  obtain ⟨hdr, hlen44, rfl⟩ := encode_wav_structure h
  constructor
  · rw [← hlen44, List.drop_left]
  · rw [← hlen44, List.take_left]

/-- C2 witness: encoding the one-byte payload `[7]` at 16 bits / 24000 Hz and
dropping the 44 header bytes returns the payload. -/
theorem C2_payload_preserved_witness :
    List.drop 44 [82, 73, 70, 70, 37, 0, 0, 0, 87, 65, 86, 69, 102, 109, 116, 32,
      16, 0, 0, 0, 1, 0, 1, 0, 192, 93, 0, 0, 128, 187, 0, 0, 2, 0, 16, 0,
      100, 97, 116, 97, 1, 0, 0, 0, 7] = [7] :=
  (C2_payload_preserved [7] 16 24000
    [82, 73, 70, 70, 37, 0, 0, 0, 87, 65, 86, 69, 102, 109, 116, 32,
      16, 0, 0, 0, 1, 0, 1, 0, 192, 93, 0, 0, 128, 187, 0, 0, 2, 0, 16, 0,
      100, 97, 116, 97, 1, 0, 0, 0, 7] (by rfl)).1

/-- C6 amended: the encoder returns a byte sequence whenever every header
field fits its unsigned `struct.pack` range; outside those ranges (negative or
oversized fields, e.g. after parsing `audio/L-8`) `struct.pack` raises, see
`C6_encoder_raises_cex`. -/
theorem C6_encoder_in_range_total (a : List Nat) (bits rate : Int)
    (hb0 : 0 ≤ bits) (hb1 : bits < 65536) (hr0 : 0 ≤ rate) (hr1 : rate < 4294967296)
    (hbr : rate * (bits / 8) < 4294967296) (hlen : (a.length : Int) ≤ 4294967259) :
    (encode_wav a bits rate).isSome = true := by
  rw [encode_wav_eq a bits rate hb0 hb1 hr0 hr1 hbr hlen]
  rfl

/-- C6 counterexample: the claim says the encoder never raises, including for
bit depths obtained by parsing `audio/L-8`; in fact that input makes
`struct.pack` raise `struct.error` (the `none` of the model). -/
theorem C6_encoder_raises_cex : convert_to_wav [] "audio/L-8" = none := by decide

/-- C6 witness: the in-range totality theorem applied at 8 bits / 8000 Hz with
a two-byte payload. -/
theorem C6_encoder_in_range_total_witness :
    (encode_wav [1, 2] 8 8000).isSome = true :=
  C6_encoder_in_range_total [1, 2] 8 8000 (by decide) (by decide) (by decide)
    (by decide) (by decide) (by decide)

/-- C7: both functions are deterministic pure functions of their arguments in
this embedding — two calls on the same input are equal — and the encoder does
not mutate its input buffer, which reappears verbatim behind the header. -/
theorem C7_pure_deterministic (a : List Nat) (m : String) :
    convert_to_wav a m = convert_to_wav a m ∧
    parse_audio_mime_type (some m) = parse_audio_mime_type (some m) ∧
    ∀ out, convert_to_wav a m = some out → List.drop 44 out = a :=
  ⟨rfl, rfl, fun _ h => convert_to_wav_drop44 h⟩

/-- C7 witness: converting the payload `[5]` with an unrecognized MIME string
leaves the payload recoverable behind the 44-byte header. -/
theorem C7_pure_deterministic_witness :
    List.drop 44 [82, 73, 70, 70, 37, 0, 0, 0, 87, 65, 86, 69, 102, 109, 116, 32,
      16, 0, 0, 0, 1, 0, 1, 0, 192, 93, 0, 0, 128, 187, 0, 0, 2, 0, 16, 0,
      100, 97, 116, 97, 1, 0, 0, 0, 5] = [5] :=
  (C7_pure_deterministic [5] "x").2.2
    [82, 73, 70, 70, 37, 0, 0, 0, 87, 65, 86, 69, 102, 109, 116, 32,
      16, 0, 0, 0, 1, 0, 1, 0, 192, 93, 0, 0, 128, 187, 0, 0, 2, 0, 16, 0,
      100, 97, 116, 97, 1, 0, 0, 0, 5] (by rfl)

/-- C3: the parser is total (never raises, by construction of the embedding);
whenever no segment successfully sets a field that field keeps its default,
and in particular the empty string, `None`, and `audio/Lxx;rate=oops` all give
`bits_per_sample = 16, sample_rate_hz = 24000`. -/
theorem C3_parser_never_raises :
    (∀ mime_type : Option String,
      ((∀ p ∈ mimeParts mime_type, setsRate p = false) →
        (parse_audio_mime_type mime_type).rate = 24000) ∧
      ((∀ p ∈ mimeParts mime_type, setsBits p = false) →
        (parse_audio_mime_type mime_type).bits_per_sample = 16)) ∧
    parse_audio_mime_type (some "") = ⟨16, 24000⟩ ∧
    parse_audio_mime_type none = ⟨16, 24000⟩ ∧
    parse_audio_mime_type (some "audio/Lxx;rate=oops") = ⟨16, 24000⟩ := by
  refine ⟨fun mime_type => ⟨fun h => ?_, fun h => ?_⟩, by decide, by decide, by decide⟩
  · exact foldl_rate_const _ _ h
  · exact foldl_bits_const _ _ h

/-- C3 witness: a MIME string without any matching segment keeps the default
sample rate. -/
theorem C3_parser_never_raises_witness :
    (parse_audio_mime_type (some "hello;world")).rate = 24000 :=
  (C3_parser_never_raises.1 (some "hello;world")).1 (by decide)

/-- C4 amended: the two concrete parses of the claim agree, and reordering the
`;`-separated parts leaves the result unchanged provided no parameter is
successfully set by two different parts; with duplicate parts the last one
wins and reordering can change the result (`C4_reorder_cex`). -/
theorem C4_order_independent_amended :
    parse_audio_mime_type (some "audio/L24;rate=48000") = ⟨24, 48000⟩ ∧
    parse_audio_mime_type (some "rate=48000;audio/L24") = ⟨24, 48000⟩ ∧
    ∀ l₁ l₂ : List (List Char), l₁.Perm l₂ → l₁.countP setsRate ≤ 1 →
      l₁.countP setsBits ≤ 1 → parseParts l₁ = parseParts l₂ :=
  ⟨by decide, by decide, fun _ _ hp h1 h2 => foldl_mimeStep_perm hp h1 h2 _⟩

/-- C4 counterexample: the claim's universal reorder-invariance fails — with
two `rate=` parts the last one wins, so swapping them changes the result. -/
theorem C4_reorder_cex :
    parse_audio_mime_type (some "rate=1;rate=2") ≠
      parse_audio_mime_type (some "rate=2;rate=1") := by decide

/-- C4 witness: the permutation theorem applied to the two-segment list of the
claim's example. -/
theorem C4_order_independent_amended_witness :
    parseParts ["rate=48000".data, "audio/L24".data] =
      parseParts ["audio/L24".data, "rate=48000".data] :=
  C4_order_independent_amended.2.2 _ _
    (List.Perm.swap ("audio/L24".data) ("rate=48000".data) []) (by decide) (by decide)

/-- C5: a segment whose lowercasing starts with `rate=` and whose argument
parses sets the rate to that value (so any casing of `rate=` works); a segment
without the case-sensitive literal prefix `audio/L` never changes
`bits_per_sample` (so `AUDIO/L24` does not); segments matching neither pattern
change nothing. -/
theorem C5_case_sensitivity :
    (∀ (acc : AudioParams) (p : List Char) (n : Int),
      List.isPrefixOf ("rate=".data) (pyLower p) = true → rateArg p = some n →
      (mimeStep acc p).rate = n) ∧
    (∀ (acc : AudioParams) (p : List Char),
      List.isPrefixOf ("audio/L".data) p = false →
      (mimeStep acc p).bits_per_sample = acc.bits_per_sample) ∧
    (∀ (acc : AudioParams) (p : List Char),
      List.isPrefixOf ("rate=".data) (pyLower p) = false →
      List.isPrefixOf ("audio/L".data) p = false → mimeStep acc p = acc) ∧
    parse_audio_mime_type (some "RATE=48000") = ⟨16, 48000⟩ ∧
    parse_audio_mime_type (some "AUDIO/L24") = ⟨16, 24000⟩ := by
  refine ⟨?_, ?_, ?_, by decide, by decide⟩
  · intro acc p n hpre harg
    rw [mimeStep_rate]
    simp [setsRate, hpre, harg]
  · intro acc p hpre
    rw [mimeStep_bits]
    simp [setsBits, hpre]
  · intro acc p h1 h2
    apply AudioParams.eq_of
    · rw [mimeStep_bits]
      simp [setsBits, h2]
    · rw [mimeStep_rate]
      simp [setsRate, h1]

/-- C5 witness: a mixed-casing `rAtE=` segment sets the rate. -/
theorem C5_case_sensitivity_witness :
    (mimeStep ⟨16, 24000⟩ ("rAtE=99".data)).rate = 99 :=
  C5_case_sensitivity.1 ⟨16, 24000⟩ ("rAtE=99".data) 99 (by decide) (by decide)

/-- C9 amended: the parser indeed performs no range validation — parsed zero
and negative values are returned as-is — but the encoder does not fold them
directly: a zero `bits_per_sample` is falsy and is replaced by the default 16
by the `or 16` coalescing, a nonzero in-range value such as 8 is folded
as-is, and a negative rate makes `struct.pack` raise. -/
theorem C9_no_range_validation_amended :
    parse_audio_mime_type (some "audio/L0;rate=-100") = ⟨0, -100⟩ ∧
    convert_to_wav [] "audio/L8;rate=8000" =
      some [82, 73, 70, 70, 36, 0, 0, 0, 87, 65, 86, 69, 102, 109, 116, 32,
        16, 0, 0, 0, 1, 0, 1, 0, 64, 31, 0, 0, 64, 31, 0, 0, 1, 0, 8, 0,
        100, 97, 116, 97, 0, 0, 0, 0] ∧
    convert_to_wav [] "audio/L0;rate=100" =
      some [82, 73, 70, 70, 36, 0, 0, 0, 87, 65, 86, 69, 102, 109, 116, 32,
        16, 0, 0, 0, 1, 0, 1, 0, 100, 0, 0, 0, 200, 0, 0, 0, 2, 0, 16, 0,
        100, 97, 116, 97, 0, 0, 0, 0] ∧
    convert_to_wav [] "audio/L0;rate=-100" = none := by decide

/-- C9 counterexample: the claim says the encoder folds the parsed values of
`audio/L0;rate=-100` directly into its header arithmetic without rejecting
them; in fact `struct.pack` rejects the negative byte rate and raises, and the
zero bit depth is replaced by 16 (see the bits field, bytes 34-35, of the
`rate=100` output in the amended theorem). -/
theorem C9_encoder_rejects_cex :
    parse_audio_mime_type (some "audio/L0;rate=-100") = ⟨0, -100⟩ ∧
    convert_to_wav [] "audio/L0;rate=-100" = none := by decide

/-- C10: when a segment that successfully sets `rate` is followed only by
segments that do not, the result's rate is that segment's value (the last
successful segment wins), and a later matching-but-unparseable segment does
not overwrite an earlier successful one. -/
theorem C10_last_segment_wins :
    (∀ (acc : AudioParams) (l₁ l₂ : List (List Char)) (p : List Char),
      setsRate p = true → (∀ q ∈ l₂, setsRate q = false) →
      ((l₁ ++ p :: l₂).foldl mimeStep acc).rate = (rateArg p).getD 0) ∧
    parse_audio_mime_type (some "rate=8000;rate=16000") = ⟨16, 16000⟩ ∧
    parse_audio_mime_type (some "rate=8000;rate=junk") = ⟨16, 8000⟩ := by
  refine ⟨?_, by decide, by decide⟩
  intro acc l₁ l₂ p hp h2
  rw [List.foldl_append, List.foldl_cons, foldl_rate_const _ _ h2, mimeStep_rate, hp]
  simp

/-- C10 witness: the last-wins theorem applied to
`rate=8000;rate=16000;rate=junk`-shaped segment lists. -/
theorem C10_last_segment_wins_witness :
    ((["rate=8000".data] ++ "rate=16000".data :: ["rate=junk".data]).foldl mimeStep
      ⟨16, 24000⟩).rate = (rateArg ("rate=16000".data)).getD 0 :=
  C10_last_segment_wins.1 ⟨16, 24000⟩ ["rate=8000".data] ["rate=junk".data]
    ("rate=16000".data) (by decide) (by decide)

/-- C8 amended: the payload decision of `text_to_speech` passes bytes through
unchanged whenever the reported MIME type says `audio/wav`; with an absent or
empty MIME type it converts under the default `audio/L16;rate=24000`; with an
unrecognized non-WAV MIME type (no extension inferable) it converts under that
MIME type with a `.wav` extension; but when the MIME type maps to a
recognized non-`.wav` extension the bytes are passed through unchanged under
that extension — the original claim's "every non-WAV MIME type is converted"
fails there, see `C8_passthrough_cex`. -/
theorem C8_orchestration_amended (guess : String → Option String) (raw : List Nat) :
    (∀ mime_type : Option String, mimeSaysWav mime_type = true →
      (tts_payload_ext guess raw mime_type).1 = some raw) ∧
    (guess "" = none →
      tts_payload_ext guess raw none =
        (convert_to_wav raw "audio/L16;rate=24000", ".wav")) ∧
    (guess "" = none →
      tts_payload_ext guess raw (some "") =
        (convert_to_wav raw "audio/L16;rate=24000", ".wav")) ∧
    (∀ m : String, m ≠ "" → mimeSaysWav (some m) = false → guess m = none →
      tts_payload_ext guess raw (some m) = (convert_to_wav raw m, ".wav")) ∧
    (∀ m e : String, m ≠ "" → guess m = some e → e ≠ "" →
      pyLower e.data ≠ ".wav".data →
      tts_payload_ext guess raw (some m) = (some raw, e)) := by
  have hwav : pyLower (".wav".data) = ".wav".data := by decide
  refine ⟨?_, ?_, ?_, ?_, ?_⟩
  · intro mime_type hsays
    simp only [tts_payload_ext, hsays]
    split
    · simp
    · simp
  · intro hg
    simp [tts_payload_ext, pyOr, hg, mimeSaysWav, hwav]
  · intro hg
    simp [tts_payload_ext, pyOr, hg, mimeSaysWav, hwav]
  · intro m hm hsays hg
    simp [tts_payload_ext, pyOr, if_neg hm, hg, hsays, hwav]
  · intro m e hm hg he hew
    simp only [tts_payload_ext, pyOr, if_neg hm, hg, Option.getD_some, if_neg he]
    rw [if_neg hew]

/-- C8 counterexample: for the non-WAV MIME type `audio/mpeg` (whose extension
is recognized as `.mp3` by `mimetypes.guess_extension`) the bytes are passed
through unchanged instead of being converted as the claim requires —
conversion would have produced a 44-byte-header output, not the raw payload. -/
theorem C8_passthrough_cex :
    (tts_payload_ext guessExtensionModel [] (some "audio/mpeg")).1 = some [] ∧
    (tts_payload_ext guessExtensionModel [] (some "audio/mpeg")).2 = ".mp3" ∧
    convert_to_wav [] "audio/mpeg" ≠ some [] := by decide

/-- C8 witness: the four behaviours of the amended theorem at concrete inputs
under the modelled `mimetypes.guess_extension`. -/
theorem C8_orchestration_amended_witness :
    (tts_payload_ext guessExtensionModel [9] (some "audio/wav")).1 = some [9] ∧
    tts_payload_ext guessExtensionModel [9] none =
      (convert_to_wav [9] "audio/L16;rate=24000", ".wav") ∧
    tts_payload_ext guessExtensionModel [9] (some "audio/L24;rate=48000") =
      (convert_to_wav [9] "audio/L24;rate=48000", ".wav") ∧
    tts_payload_ext guessExtensionModel [9] (some "audio/mpeg") = (some [9], ".mp3") :=
  ⟨(C8_orchestration_amended guessExtensionModel [9]).1 _ (by decide),
    (C8_orchestration_amended guessExtensionModel [9]).2.1 (by decide),
    (C8_orchestration_amended guessExtensionModel [9]).2.2.2.1 _ (by decide)
      (by decide) (by decide),
    (C8_orchestration_amended guessExtensionModel [9]).2.2.2.2 _ _ (by decide)
      (by decide) (by decide) (by decide)⟩
